import Mathlib

/-!
# Verification of the BbongGuard evidence-verification pipeline

Shallow embedding of the parts of the BbongGuard server that the specification
talks about, together with proofs (and refutations) of the spec's claims.

Conventions of the embedding:

* Python floats are modelled as `ℚ`.  The transcendental `math.exp` is passed
  around as an abstract function `mexp : ℚ → ℚ` (the pipeline only feeds its
  output into arithmetic and comparisons, so nothing is lost).
* Date strings (`published_date`, the video publish date) are modelled by their
  parsed value in days, `Option Int`; `none` stands for a missing **or**
  unparseable date (both lead to the same branch in the source).
  `now : Int` is the ambient wall clock of `datetime.now` in days.
* The sentence-embedding collaborator (`SentenceTransformer` + cosine
  similarity) is modelled as an input `sim : Nat → ℚ` giving the raw
  similarity of the claim with the i-th evidence text.
* Dictionary access `d.get(k, default)` on optional keys becomes
  `Option.getD`; pydantic fields with a declared default keep that default.
* `async`/`await` and logging are irrelevant to the claims and are erased.
-/

/-! ## Data model (src/server/shared/text_module.py, shared/schemas.py) -/

/-- `Claim` (shared/text_module.py:10-17): one checkable assertion. -/
structure Claim where
  claim_id : String
  claim_text : String
  category : String
  importance : String
deriving Repr, DecidableEq

/-- `Evidence` (shared/text_module.py:20-28).  `published_date` is the parsed
date in days (`none` = absent/unparseable), see the header conventions. -/
structure Evidence where
  source_title : String
  source_url : String
  domain : String
  snippet : String
  published_date : Option Int
deriving Repr, DecidableEq

/-- `ClaimVerdict` (shared/text_module.py:31-42).  The pydantic field
`verdict_status` has declared default `"insufficient_evidence"`; every
constructor call in the repository omits the field, so the default is what
gets stored. -/
structure ClaimVerdict where
  claim_id : String
  claim_text : String
  category : String
  verdict_status : String
  is_fake : Bool
  verdict_reason : String
  evidence : List Evidence
  processing_time_ms : ℚ
deriving Repr, DecidableEq

/-! ## Evidence ranker (src/server/text_module/evidence_ranker.py)

The evidence dictionaries fed to `rank_evidence` are produced by
`WebSearcher.filter_and_format_results`; the keys it sets are the fields
below.  `domain_score` is read with `ev.get('domain_score', 0.5)` so it is
kept optional here; `date_diff_days` is only ever present when
`WebSearcher.rerank_by_date` ran on the list (it is absent in the
`search_and_filter` path used by `TextAnalyzer`). -/

/-- One raw evidence dictionary as consumed by `EvidenceRanker.rank_evidence`. -/
structure EvidenceDict where
  source_title : String
  source_url : String
  domain : String
  snippet : String
  published_date : Option Int
  domain_score : Option ℚ
  date_diff_days : Option Nat
deriving Repr, DecidableEq

/-- `Config.RAG_TOP_EVIDENCE` (config.py:44), env default `"5"`. -/
def RAG_TOP_EVIDENCE : Nat := 5

/-- `EvidenceRanker.calculate_recency_score` (evidence_ranker.py:31-57):
`0.7` when the date is missing or unparseable, otherwise
`clamp(exp(-days_ago/365), 0, 1)` with `days_ago = now - pub_date` in days. -/
def calculate_recency_score (mexp : ℚ → ℚ) (now : Int) (published_date : Option Int) : ℚ :=
  match published_date with
  | none => 7/10
  | some pub =>
      let days_ago : Int := now - pub
      max 0 (min 1 (mexp (-(days_ago : ℚ) / 365)))

/-- `EvidenceRanker.calculate_combined_score` (evidence_ranker.py:59-93) with
the default weights `{'relevance': 0.4, 'domain': 0.2, 'recency': 0.4}`
(no caller ever passes custom weights). -/
def calculate_combined_score (relevance_score domain_score recency_score : ℚ) : ℚ :=
  relevance_score * (4/10) + domain_score * (2/10) + recency_score * (4/10)

/-- One scored entry of the `scored_evidence` list built inside
`rank_evidence` (evidence_ranker.py:159-166). -/
structure ScoredEvidence where
  evidence : Evidence
  combined_score : ℚ
  date_diff_days : Nat
  recency_score : ℚ
  relevance_score : ℚ
  domain_score : ℚ
deriving Repr, DecidableEq

/-- The loop body of `rank_evidence` (evidence_ranker.py:134-166) for the i-th
evidence item, where `sim` is the raw cosine similarity for that item:
clip the similarity to [0,1], read `domain_score` with default 0.5, use the
30-day exponential decay on `date_diff_days` when that key is present and the
`calculate_recency_score` fallback otherwise, combine, and record the
`date_diff_days` sort key with the 3650-day sentinel for a missing date. -/
def scoreOne (mexp : ℚ → ℚ) (now : Int) (sim : ℚ) (ev : EvidenceDict) : ScoredEvidence :=
  let relevance_score : ℚ := max 0 (min 1 sim)
  let domain_score : ℚ := ev.domain_score.getD (1/2)
  let recency_score : ℚ :=
    match ev.date_diff_days with
    | some d => mexp (-(d : ℚ) / 30)
    | none => calculate_recency_score mexp now ev.published_date
  { evidence :=
      { source_title := ev.source_title
        source_url := ev.source_url
        domain := ev.domain
        snippet := ev.snippet
        published_date := ev.published_date }
    combined_score := calculate_combined_score relevance_score domain_score recency_score
    date_diff_days := ev.date_diff_days.getD 3650
    recency_score := recency_score
    relevance_score := relevance_score
    domain_score := domain_score }

/-- The comparison realised by
`scored_evidence.sort(key=lambda x: (x['date_diff_days'], -x['combined_score']))`
(evidence_ranker.py:169-171): ascending lexicographic order on the key tuple,
i.e. primary `date_diff_days` ascending, secondary `combined_score`
descending. -/
def scoredLE (a b : ScoredEvidence) : Bool :=
  a.date_diff_days < b.date_diff_days ||
    (a.date_diff_days == b.date_diff_days && decide (b.combined_score ≤ a.combined_score))

/-- `scoredLE` as a relation, for `List.insertionSort`. -/
def scoredRel (a b : ScoredEvidence) : Prop := scoredLE a b = true

instance : DecidableRel scoredRel := fun a b => instDecidableEqBool (scoredLE a b) true

/-- `rank_evidence` up to (and including) the sort, before the projection
`[item['evidence'] for item in scored_evidence]` (evidence_ranker.py:112-173).
Python's `list.sort` is a stable sort by the key tuple; a stable sort by a
total preorder has a unique result, so any stable sort models it — here
insertion sort by the non-strict comparison `scoredLE`, which is stable. -/
def rank_evidence_scored (mexp : ℚ → ℚ) (now : Int) (sim : Nat → ℚ)
    (evidence_list : List EvidenceDict) : List ScoredEvidence :=
  if evidence_list.isEmpty then []
  else
    List.insertionSort scoredRel
      (evidence_list.enum.map (fun p => scoreOne mexp now (sim p.1) p.2))

/-- `EvidenceRanker.rank_evidence` (evidence_ranker.py:95-187).  The `claim`
argument only feeds the embedding collaborator, which is abstracted into
`sim`.  The `except` branch (embedding failure → `[]`) is a collaborator
failure and is not modelled. -/
def rank_evidence (mexp : ℚ → ℚ) (now : Int) (sim : Nat → ℚ) (_claim : Claim)
    (evidence_list : List EvidenceDict) : List Evidence :=
  (rank_evidence_scored mexp now sim evidence_list).map (·.evidence)

/-- `EvidenceRanker.select_top_evidence` (evidence_ranker.py:189-208):
`ranked_evidence[:k]` with `k` defaulting to `Config.RAG_TOP_EVIDENCE`. -/
def select_top_evidence (ranked_evidence : List Evidence) (top_k : Option Nat) : List Evidence :=
  ranked_evidence.take (top_k.getD RAG_TOP_EVIDENCE)

/-- `EvidenceRanker.rank_and_select` (evidence_ranker.py:210-229). -/
def rank_and_select (mexp : ℚ → ℚ) (now : Int) (sim : Nat → ℚ) (claim : Claim)
    (evidence_list : List EvidenceDict) (top_k : Option Nat) : List Evidence :=
  select_top_evidence (rank_evidence mexp now sim claim evidence_list) top_k

/-! ## Trust registry (src/server/shared/source_manager.py)

The registry's functions all begin with `extract_domain(url)` (urlparse +
lowercase + `www.` strip); since every path applies the same extraction, the
functions below take the already-extracted `domain` directly.  The whitelist
is a JSON object, i.e. an insertion-ordered map from tier name to tier info;
it is modelled as an association list (Python dict keys are unique, which is
assumed as a hypothesis where it matters). -/

/-- One whitelist tier object.  `score` and `categories` model the optional
JSON keys read with `tier_info.get('score', 0.5)` and
`'categories' in tier_info`. -/
structure TierInfo where
  domains : List String
  score : Option ℚ
  categories : Option (List String)
deriving Repr, DecidableEq

/-- The loaded registry state (`self.whitelist`, `self.blacklist`). -/
structure SourceManager where
  whitelist : List (String × TierInfo)
  blacklist : List String
deriving Repr, DecidableEq

/-- Python's `str.endswith`, computed on the character lists (so that concrete
instances reduce inside the kernel; byte-level and character-level suffix
agree on valid UTF-8). -/
def strEndsWith (s suffix : String) : Bool :=
  suffix.toList.isSuffixOf s.toList

/-- Full-match glob with `*` matching any (possibly empty) substring, by
structural recursion on fuel.  This is the semantics of
`re.match('^' + trusted.replace('.', '\\.').replace('*', '.*') + '$', domain)`
(source_manager.py:177-180) for patterns whose only regex-special characters
are `.` (escaped) and `*` (turned into `.*`) — true of domain patterns.
Every recursive call shrinks `pattern.length + s.length`, so
`globMatch` below supplies enough fuel for the `0` case never to be hit. -/
def globMatchFuel : Nat → List Char → List Char → Bool
  | 0, _, _ => false
  | _ + 1, [], s => s.isEmpty
  | fuel + 1, '*' :: ps, s =>
      globMatchFuel fuel ps s ||
        (match s with
         | [] => false
         | _ :: s' => globMatchFuel fuel ('*' :: ps) s')
  | _ + 1, _ :: _, [] => false
  | fuel + 1, p :: ps, c :: s => p == c && globMatchFuel fuel ps s

/-- Full-match glob, see `globMatchFuel`. -/
def globMatch (pattern s : List Char) : Bool :=
  globMatchFuel (pattern.length + s.length + 1) pattern s

/-- The per-entry domain test inside `get_domain_tier`
(source_manager.py:171-184): exact match, then wildcard match when the trusted
pattern contains `*`, then subdomain-suffix match. -/
def domainMatches (domain trusted : String) : Bool :=
  domain == trusted ||
    (trusted.toList.contains '*' && globMatch trusted.toList domain.toList) ||
    strEndsWith domain ("." ++ trusted)

/-- `SourceManager.is_blacklisted` (source_manager.py:135-153) on the
extracted domain: exact match or subdomain of a blacklisted entry. -/
def is_blacklisted (sm : SourceManager) (domain : String) : Bool :=
  sm.blacklist.any (fun b => domain == b || strEndsWith domain ("." ++ b))

/-- `SourceManager.get_domain_tier` (source_manager.py:155-186): the name of
the first whitelist tier one of whose trusted domains matches, else `None`. -/
def get_domain_tier (sm : SourceManager) (domain : String) : Option String :=
  sm.whitelist.findSome? (fun p =>
    if p.2.domains.any (domainMatches domain) then some p.1 else none)

/-- Python `self.whitelist[tier]`: first association-list entry for the name. -/
def wlLookup (wl : List (String × TierInfo)) (name : String) : Option TierInfo :=
  wl.findSome? (fun p => if p.1 == name then some p.2 else none)

/-- `SourceManager.get_domain_score` (source_manager.py:188-208): `0.0` for a
blacklisted domain; a matched tier's `score` (default 0.5) — guarded by the
Python truthiness test `if tier and tier in self.whitelist` — else `0.3`. -/
def get_domain_score (sm : SourceManager) (domain : String) : ℚ :=
  if is_blacklisted sm domain then 0
  else
    match get_domain_tier sm domain with
    | some tier =>
        if tier ≠ "" then
          match wlLookup sm.whitelist tier with
          | some info => info.score.getD (1/2)
          | none => 3/10
        else 3/10
    | none => 3/10

/-- The dictionary returned by `SourceManager.get_credibility_info`
(source_manager.py:235-243). -/
structure CredibilityInfo where
  domain : String
  tier : Option String
  base_score : ℚ
  final_score : ℚ
  category_match : Bool
  is_blacklisted : Bool
  is_whitelisted : Bool
deriving Repr, DecidableEq

/-- `SourceManager.get_credibility_info` (source_manager.py:210-243):
`category_match` defaults to `True` and is only recomputed when
`tier and category and tier in self.whitelist` holds (Python truthiness: both
strings non-empty) and the tier declares a `categories` list; a mismatch
multiplies the base score by 0.7. -/
def get_credibility_info (sm : SourceManager) (domain : String)
    (category : Option String) : CredibilityInfo :=
  let tier := get_domain_tier sm domain
  let base_score := get_domain_score sm domain
  let category_match : Bool :=
    match tier, category with
    | some t, some c =>
        if t ≠ "" ∧ c ≠ "" then
          match wlLookup sm.whitelist t with
          | some info =>
              match info.categories with
              | some cats => cats.contains c
              | none => true
          | none => true
        else true
    | _, _ => true
  let final_score := if category_match then base_score else base_score * (7/10)
  { domain := domain
    tier := tier
    base_score := base_score
    final_score := final_score
    category_match := category_match
    is_blacklisted := is_blacklisted sm domain
    is_whitelisted := tier.isSome }

/-- The claim's notion of a category mismatch: a (non-empty) claim category is
given, the tier declares a category list, and the category is not in it. -/
def categoryMismatch (info : TierInfo) (category : Option String) : Bool :=
  match category with
  | none => false
  | some c => c != "" && (match info.categories with
      | some cats => !(cats.contains c)
      | none => false)

/-! ## Transcript acquisition chain (src/server/shared/youtube_client.py)

`YouTubeClient.get_transcript` runs a bounded retry loop around the
`youtube_transcript_api` captions strategy.  The outcome of the i-th fetch
attempt is modelled by an input `outcome : Nat → FetchOutcome`; the value
`random.random() * 2` drawn before the i-th sleep is modelled by an input
`jitter : Nat → ℚ`.  The `yt-dlp` strategy (`_get_transcript_via_ytdlp`) is
abstracted to the string `ytdlp` it would return; the run records in
`ytdlpInvoked` whether it was called at all. -/

/-- Classification of one `api.fetch` attempt, mirroring the `except` clauses
of youtube_client.py:186-215: the two `NonRetryable` caption errors, or a
generic exception with the two string tests
`is_proxy_error = ("Tunnel connection failed" in msg or "500" in msg)` and
`is_rate_limit = ("429" in msg or "Too Many Requests" in msg)` applied. -/
inductive FetchOutcome where
  | success (script : String)
  | captionsDisabled
  | noTranscriptFound
  | failure (is_proxy_error : Bool) (is_rate_limit : Bool)
deriving Repr, DecidableEq

/-- Observable trace of one `get_transcript` call: the returned transcript,
the proxy setting under which each fetch attempt ran (in order), the backoff
delays actually slept, and whether the yt-dlp fallback strategy ran. -/
structure TranscriptRun where
  transcript : String
  proxyLog : List Bool
  delays : List ℚ
  ytdlpInvoked : Bool
deriving Repr, DecidableEq

/-- `max_retries = 5` (youtube_client.py:168). -/
def max_retries : Nat := 5

/-- `base_delay = 4` (youtube_client.py:169). -/
def base_delay : ℚ := 4

/-- The retry loop `for attempt in range(max_retries)` of
`get_transcript` (youtube_client.py:171-215), as a recursion on the remaining
iterations (`fuel`), carrying the current attempt index and the current
`proxy_config` (a `Bool`: is a proxy configured).

* `success` returns the script.
* `TranscriptsDisabled` / `NoTranscriptFound` return `""` at once.
* A retryable failure (`is_proxy_error or is_rate_limit`) with
  `attempt < max_retries - 1` disables the proxy on a proxy error, sleeps
  `base_delay * 2^attempt + jitter`, and continues with the next attempt.
* Every other failure — including a retryable one on the last attempt —
  returns `""` (both `return ""` statements at youtube_client.py:212 and
  215 are taken here).
* If the loop ever completed all its iterations the code would fall through
  to the yt-dlp fallback (youtube_client.py:219); that is the `fuel = 0`
  case.  Because every loop body either returns or consumes one unit of
  fuel per attempt, this case is unreachable from `get_transcript`. -/
def get_transcript_loop (outcome : Nat → FetchOutcome) (jitter : Nat → ℚ) (ytdlp : String) :
    Nat → Nat → Bool → TranscriptRun
  | 0, _, _ =>
      { transcript := ytdlp, proxyLog := [], delays := [], ytdlpInvoked := true }
  | fuel + 1, attempt, proxy =>
      match outcome attempt with
      | .success s =>
          { transcript := s, proxyLog := [proxy], delays := [], ytdlpInvoked := false }
      | .captionsDisabled =>
          { transcript := "", proxyLog := [proxy], delays := [], ytdlpInvoked := false }
      | .noTranscriptFound =>
          { transcript := "", proxyLog := [proxy], delays := [], ytdlpInvoked := false }
      | .failure is_proxy_error is_rate_limit =>
          if (is_proxy_error || is_rate_limit) && attempt < max_retries - 1 then
            let proxy' := if is_proxy_error && proxy then false else proxy
            let delay := base_delay * 2 ^ attempt + jitter attempt
            let rest := get_transcript_loop outcome jitter ytdlp fuel (attempt + 1) proxy'
            { transcript := rest.transcript
              proxyLog := proxy :: rest.proxyLog
              delays := delay :: rest.delays
              ytdlpInvoked := rest.ytdlpInvoked }
          else
            { transcript := "", proxyLog := [proxy], delays := [], ytdlpInvoked := false }

/-- `YouTubeClient.get_transcript` (youtube_client.py:143-224):
`proxyConfigured` is whether the WebShare credentials are set
(youtube_client.py:159-165); the loop starts at attempt 0 with
`fuel = max_retries`. -/
def get_transcript (outcome : Nat → FetchOutcome) (jitter : Nat → ℚ) (ytdlp : String)
    (proxyConfigured : Bool) : TranscriptRun :=
  get_transcript_loop outcome jitter ytdlp max_retries 0 proxyConfigured

/-! ## Claim judgment (src/server/text_module/verdict_agent.py) and the
per-claim pipeline (src/server/text_module/text_analyzer.py) -/

/-- The JSON object returned by `llm_client.chat_completion_json` for a claim
judgment; both keys are read with `.get` and a default
(verdict_agent.py:71,76). -/
structure OracleResponse where
  verdict_status : Option String
  reason : Option String
deriving Repr, DecidableEq

/-- One interaction with the Judgment Oracle: either a parsed JSON response or
an exception anywhere in the `try` block (timeout, malformed JSON, ...). -/
inductive OracleOutcome where
  | ok (resp : OracleResponse)
  | err (msg : String)
deriving Repr, DecidableEq

/-- The status validation of verdict_agent.py:71-74: read
`verdict_status` with default `"insufficient_evidence"`, then map any value
outside the three-element vocabulary back to `"insufficient_evidence"`. -/
def validated_verdict_status (resp : OracleResponse) : String :=
  let vs := resp.verdict_status.getD "insufficient_evidence"
  if vs = "verified_true" ∨ vs = "verified_false" ∨ vs = "insufficient_evidence" then vs
  else "insufficient_evidence"

/-- A `judge_claim`/`_process_single_claim` run: the produced verdict plus
whether a judgment request was actually sent to the Oracle. -/
structure JudgeRun where
  verdict : ClaimVerdict
  oracleInvoked : Bool
deriving Repr, DecidableEq

/-- `VerdictAgent.judge_claim` (verdict_agent.py:24-101).

* Empty evidence list (verdict_agent.py:45-54): return at once, no oracle
  call.  The constructor omits `verdict_status`, so the pydantic default
  `"insufficient_evidence"` is stored.
* Oracle success (verdict_agent.py:69-88): validate the status, compute
  `is_fake = (verdict_status == "verified_false")` — and again omit
  `verdict_status` from the constructor, so the stored field stays at its
  default regardless of the oracle's answer.
* Any exception (verdict_agent.py:90-101): `insufficient_evidence`,
  `is_fake=False`, the error text recorded in the reason. -/
def judge_claim (claim : Claim) (evidence_list : List Evidence) (oracle : OracleOutcome) :
    JudgeRun :=
  if evidence_list.isEmpty then
    { verdict :=
        { claim_id := claim.claim_id
          claim_text := claim.claim_text
          category := claim.category
          verdict_status := "insufficient_evidence"
          is_fake := false
          verdict_reason := "관련 증거를 찾지 못했습니다."
          evidence := []
          processing_time_ms := 0 }
      oracleInvoked := false }
  else
    match oracle with
    | .ok resp =>
        let verdict_status := validated_verdict_status resp
        let reason := resp.reason.getD "판정 이유 없음"
        let is_fake := verdict_status == "verified_false"
        { verdict :=
            { claim_id := claim.claim_id
              claim_text := claim.claim_text
              category := claim.category
              verdict_status := "insufficient_evidence"
              is_fake := is_fake
              verdict_reason := reason
              evidence := evidence_list
              processing_time_ms := 0 }
          oracleInvoked := true }
    | .err msg =>
        { verdict :=
            { claim_id := claim.claim_id
              claim_text := claim.claim_text
              category := claim.category
              verdict_status := "insufficient_evidence"
              is_fake := false
              verdict_reason := "판정 중 오류 발생: " ++ msg
              evidence := evidence_list
              processing_time_ms := 0 }
          oracleInvoked := true }

/-- `TextAnalyzer._process_single_claim` (text_analyzer.py:195-234):
`search_result` is what `WebSearcher.search_and_filter` returned for the
claim.  With no surviving evidence the code returns at once — with
`is_fake=True` ("no evidence → unverifiable → judged fake", per its own
comment) and the `verdict_status` field again left at its default.  Otherwise
it ranks, selects the top-K and judges. -/
def process_single_claim (mexp : ℚ → ℚ) (now : Int) (sim : Nat → ℚ) (claim : Claim)
    (search_result : List EvidenceDict) (oracle : OracleOutcome) : JudgeRun :=
  if search_result.isEmpty then
    { verdict :=
        { claim_id := claim.claim_id
          claim_text := claim.claim_text
          category := claim.category
          verdict_status := "insufficient_evidence"
          is_fake := true
          verdict_reason := "신뢰할 수 있는 출처에서 관련 정보를 찾을 수 없어 검증 불가능합니다."
          evidence := []
          processing_time_ms := 0 }
      oracleInvoked := false }
  else
    let top_evidence := rank_and_select mexp now sim claim search_result none
    judge_claim claim top_evidence oracle

/-- The dictionary returned by `VerdictAgent.aggregate_verdicts`
(verdict_agent.py:244-249). -/
structure AggregateResult where
  is_fake_news : Bool
  summary : String
  total_claims : Nat
  fake_claims_count : Nat
deriving Repr, DecidableEq

/-- `VerdictAgent.aggregate_verdicts` (verdict_agent.py:219-249): empty input
short-circuits to all-zero counts; otherwise
`is_fake_news = (fake_claims_count >= total_claims * 0.5)` (exact float
arithmetic: an integer comparison against `total/2`). -/
def aggregate_verdicts (verdicts : List ClaimVerdict) : AggregateResult :=
  if verdicts.isEmpty then
    { is_fake_news := false
      summary := "분석할 주장이 없습니다."
      total_claims := 0
      fake_claims_count := 0 }
  else
    let total_claims := verdicts.length
    let fake_claims_count := (verdicts.filter (fun v => v.is_fake)).length
    { is_fake_news := decide ((fake_claims_count : ℚ) ≥ (total_claims : ℚ) * (5/10))
      summary := "총 " ++ toString total_claims ++ "개 주장 중 " ++
        toString fake_claims_count ++ "개가 거짓으로 판명되었습니다."
      total_claims := total_claims
      fake_claims_count := fake_claims_count }

/-! ## Multimodal orchestrator (src/server/main.py) and final aggregation
(verdict_agent.py:103-217)

`analyze_video_multimodal` is an async generator; its observable behaviour is
the ordered event stream it yields.  Only the terminal event matters to the
claims, so a run is modelled as the terminal event plus four booleans
recording which collaborators were actually invoked.  The environment
supplies the outcome of each collaborator call:

* Phase 1 (main.py:102-124) awaits the audio pipeline inside its own
  `try/except`, so a raising audio pipeline leaves `audio_result = None` —
  modelled as `Option AudioModuleResult`.
* Phase 2 (main.py:136-161) awaits the text and image pipelines through
  `run_with_id`, which converts an exception into a returned exception
  object — modelled as `TaskOutcome`.
* The freshness of the Judgment Oracle's aggregation answer is `AggOutcome`. -/

/-- Image-module per-claim record (image_module/schemas.py:10-15).  The
`frames` payload dicts are abstracted to opaque strings. -/
structure ImageClaimVerdict where
  claim_id : String
  image_support_score : ℚ
  image_contradiction_score : ℚ
  notes : List String
  frames : List String
deriving Repr, DecidableEq

/-- `ImageModuleResult` (image_module/schemas.py:17-26). -/
structure ImageModuleResult where
  modality : String
  video_id : String
  analysis_summary : String
  claims : List ImageClaimVerdict
  frames : List String
  processing_time_ms : ℚ
  status : String
  overall_contradiction_score : ℚ
  error_message : Option String
deriving Repr, DecidableEq

/-- Pydantic validation for constructing an `ImageModuleResult`: each argument
is `some v` when the keyword was passed and `none` when it was omitted.
`video_id`, `analysis_summary`, `claims`, `processing_time_ms` and `status`
have no declared default in the schema, so omitting any of them raises a
`ValidationError`; the remaining fields fall back to their declared
defaults. -/
def ImageModuleResult.validate (video_id : Option String) (analysis_summary : Option String)
    (claims : Option (List ImageClaimVerdict)) (frames : Option (List String))
    (processing_time_ms : Option ℚ) (status : Option String)
    (overall_contradiction_score : Option ℚ) (error_message : Option (Option String)) :
    Except String ImageModuleResult :=
  match video_id, analysis_summary, claims, processing_time_ms, status with
  | some v, some a, some c, some p, some s =>
      .ok { modality := "image"
            video_id := v
            analysis_summary := a
            claims := c
            frames := frames.getD []
            processing_time_ms := p
            status := s
            overall_contradiction_score := overall_contradiction_score.getD 0
            error_message := (error_message.getD none) }
  | _, _, _, _, _ => .error "ValidationError: missing required field"

/-- Audio-module per-claim record (audio_module/schemas.py:12-16); segment
payloads abstracted to opaque strings. -/
structure AudioClaimVerdict where
  claim_id : String
  audio_support_score : ℚ
  notes : List String
  segments : List String
deriving Repr, DecidableEq

/-- `AudioModuleResult` (audio_module/schemas.py:18-26). -/
structure AudioModuleResult where
  modality : String
  video_id : String
  analysis_summary : String
  claims : List AudioClaimVerdict
  processing_time_ms : ℚ
  status : String
  error_message : Option String
  transcript : Option String
deriving Repr, DecidableEq

/-- The slice of `TextModuleResult` (shared/text_module.py:60-88) that the
orchestrator reads. -/
structure TextModuleResult where
  video_id : String
  analysis_summary : String
  claims : List ClaimVerdict
  status : String
  transcript : Option String
deriving Repr, DecidableEq

/-- One entry of the `text_sources_info` list built by
`aggregate_multimodal_verdicts` (verdict_agent.py:155-159). -/
structure TextSource where
  reason : String
  title : String
  url : String
deriving Repr, DecidableEq

/-- `FinalVerdict` (shared/multimodal_result.py:25-53).  Optional summary
fields default to `none`, list fields to `[]`. -/
structure FinalVerdict where
  is_fake_news : Bool
  confidence_level : String
  overall_reasoning : String
  text_analysis_summary : Option String := none
  image_analysis_summary : Option String := none
  audio_analysis_summary : Option String := none
  image_analysis_details : Option String := none
  audio_analysis_details : Option String := none
  key_evidence : List String := []
  text_sources : List TextSource := []
  recommendation : String
deriving Repr, DecidableEq

/-- The JSON fields of the Oracle's final-aggregation answer, each read with
`.get` and a default (verdict_agent.py:195-207). -/
structure AggFields where
  is_fake_news : Option Bool
  confidence_level : Option String
  overall_reasoning : Option String
  text_analysis_summary : Option String
  image_analysis_summary : Option String
  audio_analysis_summary : Option String
  image_analysis_details : Option String
  audio_analysis_details : Option String
  key_evidence : Option (List String)
  recommendation : Option String
deriving Repr, DecidableEq

/-- Outcome of the final-aggregation oracle call: parsed JSON, or an exception
anywhere inside the `try` of `aggregate_multimodal_verdicts`. -/
inductive AggOutcome where
  | ok (fields : AggFields)
  | err (msg : String)
deriving Repr, DecidableEq

/-- The `text_sources_info` collection loop of `aggregate_multimodal_verdicts`
(verdict_agent.py:133-159): for each claim in order, find its text verdict by
`claim_id`, and append one `{reason, title, url}` entry per evidence item
whose URL has not been seen yet. -/
def collect_text_sources (claims : List Claim) (text_verdicts : List ClaimVerdict) :
    List TextSource :=
  claims.foldl (fun acc claim =>
    match text_verdicts.find? (fun v => v.claim_id == claim.claim_id) with
    | none => acc
    | some tv =>
        tv.evidence.foldl (fun acc2 ev =>
          if acc2.any (fun s => s.url == ev.source_url) then acc2
          else acc2 ++ [{ reason := tv.verdict_reason
                          title := ev.source_title
                          url := ev.source_url }]) acc) []

/-- `VerdictAgent.aggregate_multimodal_verdicts` (verdict_agent.py:103-217):
on oracle success, build the `FinalVerdict` from the JSON fields with their
defaults and the collected text sources; on any exception, return the
conservative low-confidence default (verdict_agent.py:209-217).  It never
raises. -/
def aggregate_multimodal_verdicts (claims : List Claim) (text_verdicts : List ClaimVerdict)
    (oracle : AggOutcome) : FinalVerdict :=
  match oracle with
  | .ok f =>
      { is_fake_news := f.is_fake_news.getD false
        confidence_level := f.confidence_level.getD "medium"
        overall_reasoning := f.overall_reasoning.getD "분석 결과 없음"
        text_analysis_summary := some (f.text_analysis_summary.getD "")
        image_analysis_summary := some (f.image_analysis_summary.getD "")
        audio_analysis_summary := some (f.audio_analysis_summary.getD "")
        image_analysis_details := some (f.image_analysis_details.getD "")
        audio_analysis_details := some (f.audio_analysis_details.getD "")
        key_evidence := f.key_evidence.getD []
        text_sources := collect_text_sources claims text_verdicts
        recommendation := f.recommendation.getD "정보 확인 필요" }
  | .err _ =>
      { is_fake_news := false
        confidence_level := "low"
        overall_reasoning := "통합 분석 중 오류가 발생했습니다."
        recommendation := "분석 시스템 오류로 인해 결과를 확인할 수 없습니다." }

/-- Outcome of a pipeline awaited through `run_with_id` (main.py:86-100):
the result, or the exception object the wrapper returned instead. -/
inductive TaskOutcome (α : Type) where
  | ok (r : α)
  | exn (msg : String)
deriving Repr, DecidableEq

/-- The collaborator outcomes for one request. -/
structure OrchestratorEnv where
  audio : Option AudioModuleResult
  text : TaskOutcome TextModuleResult
  image : TaskOutcome ImageModuleResult
  agg : AggOutcome
deriving Repr, DecidableEq

/-- The `MultiModalAnalysisResult` payload of a terminal `result` event
(shared/multimodal_result.py:58-76); module results default to `None`. -/
structure MultiModalAnalysisResult where
  video_id : String
  text_result : Option TextModuleResult
  image_result : Option ImageModuleResult
  audio_result : Option AudioModuleResult
  final_verdict : FinalVerdict
deriving Repr, DecidableEq

/-- The terminal event of the NDJSON stream: exactly one `error` or `result`. -/
inductive StreamOutcome where
  | errorEvent (message : String)
  | resultEvent (r : MultiModalAnalysisResult)
deriving Repr, DecidableEq

/-- Observable behaviour of one `analyze_video_multimodal` request. -/
structure OrchestratorRun where
  audioInvoked : Bool
  textInvoked : Bool
  imageInvoked : Bool
  aggregatorInvoked : Bool
  outcome : StreamOutcome
deriving Repr, DecidableEq

/-- The non-substantive terminal verdict built in the zero-claims branch
(main.py:203-208). -/
def nonSubstantiveVerdict : FinalVerdict :=
  { is_fake_news := false
    confidence_level := "low"
    overall_reasoning := "정보성 영상이 아니거나, 검증할 만한 핵심 주장이 발견되지 않았습니다."
    recommendation := "이 영상은 팩트체크 대상이 아닐 수 있습니다." }

/-- `analyze_video_multimodal` (main.py:62-283), step by step:

1. Phase 1 (main.py:115-122) always awaits the audio pipeline; an exception
   is swallowed and leaves `audio_result = None`.
2. Phase 2 (main.py:136-161) always awaits the text and image pipelines
   (both coroutines are awaited before any result is inspected).
3. Text failure is fatal (main.py:172-176): terminal `error` event.
4. Claims are rebuilt from `text_result.claims` with importance `"High"`
   (main.py:188-195); if there are none, the zero-claims branch
   (main.py:197-215) emits the terminal non-substantive `result` event and
   returns — the aggregator is not called.
5. An image exception is replaced by a sentinel `ImageModuleResult`
   (main.py:218-225) — whose constructor call omits the required
   `processing_time_ms` field, so pydantic raises a `ValidationError`, the
   outer `except` (main.py:279-281) catches it, and the stream terminates
   with an `error` event.
6. The audio `isinstance(audio_result, Exception)` check (main.py:227) can
   never fire (Phase 1 stored `None`, not an exception), so a failed audio
   pipeline reaches `audio_result.claims = ...` (main.py:249) as `None` and
   raises `AttributeError` — again caught by the outer `except`.
7. Otherwise the per-claim image/audio verdicts are injected
   (main.py:236-256), the aggregator runs, and the terminal `result` event
   carries the assembled `MultiModalAnalysisResult` (main.py:258-277). -/
def analyze_video_multimodal (video_id : String) (env : OrchestratorEnv) : OrchestratorRun :=
  let audio_result := env.audio
  match env.text with
  | .exn msg =>
      { audioInvoked := true, textInvoked := true, imageInvoked := true
        aggregatorInvoked := false
        outcome := .errorEvent ("핵심 분석(텍스트) 실패: " ++ msg) }
  | .ok text_result =>
    let claims : List Claim := text_result.claims.map (fun cv =>
      { claim_id := cv.claim_id
        claim_text := cv.claim_text
        category := cv.category
        importance := "High" })
    if claims.isEmpty then
      { audioInvoked := true, textInvoked := true, imageInvoked := true
        aggregatorInvoked := false
        outcome := .resultEvent
          { video_id := video_id
            text_result := some text_result
            image_result := none
            audio_result := none
            final_verdict := nonSubstantiveVerdict } }
    else
      let imageStep : Except String ImageModuleResult :=
        match env.image with
        | .ok ir => .ok ir
        | .exn _ =>
            ImageModuleResult.validate (some video_id) (some "이미지 분석 실패")
              (some []) none none (some "error") none none
      match imageStep with
      | .error vmsg =>
          { audioInvoked := true, textInvoked := true, imageInvoked := true
            aggregatorInvoked := false
            outcome := .errorEvent ("분석 중 오류 발생: " ++ vmsg) }
      | .ok image_result0 =>
        match audio_result with
        | none =>
            { audioInvoked := true, textInvoked := true, imageInvoked := true
              aggregatorInvoked := false
              outcome := .errorEvent
                "분석 중 오류 발생: 'NoneType' object has no attribute 'claims'" }
        | some audio_result0 =>
          let image_result :=
            { image_result0 with claims := claims.map (fun c =>
                { claim_id := c.claim_id
                  image_support_score := 0
                  image_contradiction_score := image_result0.overall_contradiction_score
                  notes := [image_result0.analysis_summary]
                  frames := image_result0.frames }) }
          let audio_result1 :=
            { audio_result0 with claims := claims.map (fun c =>
                { claim_id := c.claim_id
                  audio_support_score := 0
                  notes := [audio_result0.analysis_summary]
                  segments := [] }) }
          let final_verdict :=
            aggregate_multimodal_verdicts claims text_result.claims env.agg
          { audioInvoked := true, textInvoked := true, imageInvoked := true
            aggregatorInvoked := true
            outcome := .resultEvent
              { video_id := video_id
                text_result := some text_result
                image_result := some image_result
                audio_result := some audio_result1
                final_verdict := final_verdict } }

/-! ## Concrete fixtures used by counterexamples and witnesses -/

/-- A concrete claim (the spec's §8 end-to-end scenario claim). -/
def sampleClaim : Claim :=
  { claim_id := "c1", claim_text := "X grew 10% in 2023", category := "economy"
    importance := "High" }

/-- A concrete evidence item. -/
def sampleEvidence : Evidence :=
  { source_title := "Trusted article", source_url := "https://trusted.example.com/2023-05-01"
    domain := "trusted.example.com", snippet := "X grew 10%", published_date := some 19478 }

/-- An aggregation-oracle answer with every JSON field absent. -/
def sampleAggFields : AggFields :=
  { is_fake_news := none, confidence_level := none, overall_reasoning := none
    text_analysis_summary := none, image_analysis_summary := none
    audio_analysis_summary := none, image_analysis_details := none
    audio_analysis_details := none, key_evidence := none, recommendation := none }

/-! ## C1 — zero surviving evidence -/

/-- C1, counterexample.  The claim asserts that for a claim with zero
surviving evidence the returned `ClaimVerdict` has
`status = insufficient_evidence` *and therefore `is_fake` is false*.  At the
concrete input "empty search result" the pipeline
(`TextAnalyzer._process_single_claim`, text_analyzer.py:211-222) instead
returns `is_fake = True` — deliberately, per the source comment "no evidence →
unverifiable → judged fake". -/
theorem C1_zero_evidence_cex :
    (process_single_claim (fun _ => 1) 0 (fun _ => 1) sampleClaim []
      (.ok { verdict_status := none, reason := none })).verdict.is_fake = true := rfl

/-- C1, amended.  For every claim with zero surviving evidence candidates the
pipeline immediately returns a `ClaimVerdict` whose `verdict_status` is
`insufficient_evidence` (the pydantic default, the constructor omits the
field) and never invokes the Judgment Oracle for that claim — but with
`is_fake = true`, not false. -/
theorem C1_zero_evidence_amended (mexp : ℚ → ℚ) (now : Int) (sim : Nat → ℚ)
    (claim : Claim) (oracle : OracleOutcome) :
    (process_single_claim mexp now sim claim [] oracle).verdict.verdict_status =
        "insufficient_evidence" ∧
    (process_single_claim mexp now sim claim [] oracle).oracleInvoked = false ∧
    (process_single_claim mexp now sim claim [] oracle).verdict.is_fake = true :=
  ⟨rfl, rfl, rfl⟩

/-! ## C5 — `is_fake` versus the `verdict_status` field -/

/-- C5, counterexample.  When the Oracle answers `verified_false` for a claim
with evidence, `judge_claim` computes `is_fake = true` from the *local*
validated status but stores the `ClaimVerdict` without passing
`verdict_status` (verdict_agent.py:80-88), so the stored field keeps its
default `insufficient_evidence`: `is_fake` is true while the status field is
not `verified_false`, refuting `is_fake = (status == verified_false)` as a
property of the produced record. -/
theorem C5_is_fake_status_cex :
    (judge_claim sampleClaim [sampleEvidence]
        (.ok { verdict_status := some "verified_false", reason := some "refuted" })).verdict.is_fake
      = true ∧
    (judge_claim sampleClaim [sampleEvidence]
        (.ok { verdict_status := some "verified_false", reason := some "refuted" })).verdict.verdict_status
      = "insufficient_evidence" ∧
    ¬ ((judge_claim sampleClaim [sampleEvidence]
        (.ok { verdict_status := some "verified_false", reason := some "refuted" })).verdict.is_fake
      = true ↔
       (judge_claim sampleClaim [sampleEvidence]
        (.ok { verdict_status := some "verified_false", reason := some "refuted" })).verdict.verdict_status
      = "verified_false") := by
  refine ⟨rfl, rfl, fun h => ?_⟩
  exact absurd (h.mp rfl) (by decide)

/-- C5, amended.  `is_fake` is true exactly when the Oracle's *validated*
verdict status is `verified_false`; the stored `verdict_status` field itself
always remains at its default `insufficient_evidence` because no constructor
call sets it; the oracle-failure path and the empty-evidence path of
`judge_claim` produce `is_fake = false` (while the pipeline's own
zero-evidence branch, see C1, produces `is_fake = true`). -/
theorem C5_is_fake_amended (claim : Claim) (e : Evidence) (es : List Evidence)
    (resp : OracleResponse) (msg : String) :
    ((judge_claim claim (e :: es) (.ok resp)).verdict.is_fake = true ↔
        validated_verdict_status resp = "verified_false") ∧
    (judge_claim claim (e :: es) (.ok resp)).verdict.verdict_status =
        "insufficient_evidence" ∧
    (judge_claim claim (e :: es) (.err msg)).verdict.is_fake = false ∧
    (judge_claim claim [] (.ok resp)).verdict.is_fake = false := by
  refine ⟨?_, rfl, rfl, rfl⟩
  simp [judge_claim]

/-! ## C7 — transcript chain advancement -/

/-- C7.  The claim (and the source's own fallback comment at
youtube_client.py:217-218) say that a `NonRetryable` caption error and an
exhausted retry budget advance the chain to the next strategy tier.  The code
instead `return ""`s inside the loop on every failure path, so the yt-dlp
fallback after the loop is unreachable.  Evaluated at the two failing inputs:
(a) `TranscriptsDisabled` on the first attempt — one fetch attempt, empty
transcript, yt-dlp never invoked; (b) a rate-limit error on all five attempts
— five fetch attempts, empty transcript, yt-dlp never invoked.  The distinct
`ytdlp` string "from yt-dlp" shows the fallback result is not what is
returned. -/
theorem C7_no_strategy_advancement :
    (get_transcript (fun _ => .captionsDisabled) (fun _ => 0) "from yt-dlp" true).transcript
        = "" ∧
    (get_transcript (fun _ => .captionsDisabled) (fun _ => 0) "from yt-dlp" true).proxyLog.length
        = 1 ∧
    (get_transcript (fun _ => .captionsDisabled) (fun _ => 0) "from yt-dlp" true).ytdlpInvoked
        = false ∧
    (get_transcript (fun _ => .failure false true) (fun _ => 0) "from yt-dlp" true).transcript
        = "" ∧
    (get_transcript (fun _ => .failure false true) (fun _ => 0) "from yt-dlp" true).proxyLog.length
        = 5 ∧
    (get_transcript (fun _ => .failure false true) (fun _ => 0) "from yt-dlp" true).ytdlpInvoked
        = false :=
  ⟨rfl, rfl, rfl, rfl, rfl, rfl⟩

/-! ## C10 — text-module majority aggregation -/

/-- C10.  `aggregate_verdicts` reports `is_fake_news` exactly when the number
of `is_fake` verdicts is at least half of the total (the float comparison
`fake >= total * 0.5` is exact), and the empty input yields
`is_fake_news = false` with zero totals. -/
theorem C10_majority_aggregation (verdicts : List ClaimVerdict) :
    ((aggregate_verdicts verdicts).is_fake_news = true ↔
      verdicts ≠ [] ∧
        verdicts.length ≤ 2 * (verdicts.filter (fun v => v.is_fake)).length) ∧
    (aggregate_verdicts []).is_fake_news = false ∧
    (aggregate_verdicts []).total_claims = 0 ∧
    (aggregate_verdicts []).fake_claims_count = 0 := by
  refine ⟨?_, rfl, rfl, rfl⟩
  match verdicts with
  | [] => simp [aggregate_verdicts]
  | v :: vs =>
      have hne : (v :: vs : List ClaimVerdict) ≠ [] := by simp
      have hcalc : (aggregate_verdicts (v :: vs)).is_fake_news =
          decide (((((v :: vs).filter (fun v => v.is_fake)).length : ℚ)) ≥
            (((v :: vs).length : ℚ)) * (5/10)) := rfl
      rw [hcalc, decide_eq_true_iff]
      constructor
      · intro h
        refine ⟨hne, ?_⟩
        have h2 : ((v :: vs).length : ℚ) ≤
            2 * (((v :: vs).filter (fun v => v.is_fake)).length : ℚ) := by linarith
        exact_mod_cast h2
      · intro ⟨_, h⟩
        have h2 : ((v :: vs).length : ℚ) ≤
            2 * (((v :: vs).filter (fun v => v.is_fake)).length : ℚ) := by exact_mod_cast h
        linarith

/-! ## C6 — zero-claims short-circuit -/

/-- A text-module result with no claims (what `_create_no_claims_result`
produces, text_analyzer.py:236-259). -/
def sampleTextEmpty : TextModuleResult :=
  { video_id := "v1"
    analysis_summary := "영상에서 팩트체킹이 필요한 구체적인 주장을 찾을 수 없습니다."
    claims := [], status := "success", transcript := none }

/-- A successful audio-module result. -/
def sampleAudioOk : AudioModuleResult :=
  { modality := "audio", video_id := "v1", analysis_summary := "오디오 요약"
    claims := [], processing_time_ms := 10, status := "success"
    error_message := none, transcript := some "stt" }

/-- A successful image-module result. -/
def sampleImageOk : ImageModuleResult :=
  { modality := "image", video_id := "v1", analysis_summary := "이미지 요약"
    claims := [], frames := [], processing_time_ms := 10, status := "success"
    overall_contradiction_score := 0, error_message := none }

/-- C6, counterexample.  The claim says that with zero extracted claims the
image and audio pipelines are never invoked.  In the source the audio
pipeline runs in Phase 1 (main.py:115-122) and the image pipeline is awaited
concurrently with text in Phase 2 (main.py:136-161), both *before* the
zero-claims check (main.py:197-215): at a concrete zero-claims request both
were invoked. -/
theorem C6_zero_claims_cex :
    (analyze_video_multimodal "v1"
      { audio := some sampleAudioOk, text := .ok sampleTextEmpty
        image := .ok sampleImageOk, agg := .ok sampleAggFields }).imageInvoked = true ∧
    (analyze_video_multimodal "v1"
      { audio := some sampleAudioOk, text := .ok sampleTextEmpty
        image := .ok sampleImageOk, agg := .ok sampleAggFields }).audioInvoked = true :=
  ⟨rfl, rfl⟩

/-- C6, amended.  Whenever claim extraction yields zero claims the pipeline
returns the terminal "non-substantive content" `FinalVerdict` with
`is_fake_news = false` and the aggregator is never invoked — but the audio
and image pipelines have already been invoked by then (audio in Phase 1,
image concurrently with text in Phase 2). -/
theorem C6_zero_claims_amended (vid : String) (env : OrchestratorEnv)
    (tr : TextModuleResult) (htext : env.text = .ok tr) (hclaims : tr.claims = []) :
    (analyze_video_multimodal vid env).aggregatorInvoked = false ∧
    (analyze_video_multimodal vid env).imageInvoked = true ∧
    (analyze_video_multimodal vid env).audioInvoked = true ∧
    (analyze_video_multimodal vid env).outcome = .resultEvent
      { video_id := vid, text_result := some tr, image_result := none
        audio_result := none, final_verdict := nonSubstantiveVerdict } ∧
    nonSubstantiveVerdict.is_fake_news = false := by
  have : analyze_video_multimodal vid env = 
      { audioInvoked := true, textInvoked := true, imageInvoked := true
        aggregatorInvoked := false
        outcome := .resultEvent
          { video_id := vid, text_result := some tr, image_result := none
            audio_result := none, final_verdict := nonSubstantiveVerdict } } := by
    unfold analyze_video_multimodal
    rw [htext]
    simp [hclaims]
  rw [this]
  exact ⟨rfl, rfl, rfl, rfl, rfl⟩

/-- C6, witness for the amended theorem at a concrete zero-claims
environment. -/
theorem C6_zero_claims_amended_witness :
    (analyze_video_multimodal "v1"
      { audio := some sampleAudioOk, text := .ok sampleTextEmpty
        image := .ok sampleImageOk, agg := .ok sampleAggFields }).aggregatorInvoked = false ∧
    (analyze_video_multimodal "v1"
      { audio := some sampleAudioOk, text := .ok sampleTextEmpty
        image := .ok sampleImageOk, agg := .ok sampleAggFields }).outcome = .resultEvent
      { video_id := "v1", text_result := some sampleTextEmpty, image_result := none
        audio_result := none, final_verdict := nonSubstantiveVerdict } := by
  obtain ⟨h1, _, _, h4, _⟩ := C6_zero_claims_amended "v1"
    { audio := some sampleAudioOk, text := .ok sampleTextEmpty
      image := .ok sampleImageOk, agg := .ok sampleAggFields } sampleTextEmpty rfl rfl
  exact ⟨h1, h4⟩

/-! ## C9 — image-pipeline failure handling -/

/-- A text-module result with one claim verdict. -/
def sampleTextOne : TextModuleResult :=
  { video_id := "v1", analysis_summary := "요약"
    claims := [{ claim_id := "c1", claim_text := "X grew 10% in 2023"
                 category := "economy", verdict_status := "insufficient_evidence"
                 is_fake := false, verdict_reason := "근거"
                 evidence := [sampleEvidence], processing_time_ms := 0 }]
    status := "success", transcript := none }

/-- C9.  The claim says an image-pipeline exception is replaced by a sentinel
`status=error` result, the aggregator still runs, and the request yields a
`FinalVerdict` instead of an error.  The sentinel construction at
main.py:220-225 omits the schema-required `processing_time_ms` field
(image_module/schemas.py:23 has no default), so pydantic raises a
`ValidationError`, the outer `except` (main.py:279-281) catches it, and the
stream terminates with an `error` event: the aggregator never runs.  The
code's own comment — "image/audio result handling (defaults on error)" —
shows the substitution was intended to succeed. -/
theorem C9_image_sentinel_validation_error :
    (analyze_video_multimodal "v1"
      { audio := some sampleAudioOk, text := .ok sampleTextOne
        image := .exn "image pipeline crashed", agg := .ok sampleAggFields }).outcome =
      .errorEvent "분석 중 오류 발생: ValidationError: missing required field" ∧
    (analyze_video_multimodal "v1"
      { audio := some sampleAudioOk, text := .ok sampleTextOne
        image := .exn "image pipeline crashed", agg := .ok sampleAggFields }).aggregatorInvoked
      = false :=
  ⟨rfl, rfl⟩

/-! ## C3 — combined score and recency selection -/

/-- C3.  For every evidence item scored by the ranker the combined score is
`0.4·relevance + 0.2·trust + 0.4·recency`; the recency factor is
`exp(-date_diff_days/30)` whenever the item's date distance from the video is
known, and otherwise the `exp(-days_since_publish/365)` fallback computed
from the item's publish date (`exp` is the abstract `mexp`; the fallback's
clamp to `[0,1]` is the identity on actual exponentials of non-future dates,
which the last two hypotheses record). -/
theorem C3_combined_score (mexp : ℚ → ℚ) (now : Int) (sim : ℚ) (ev : EvidenceDict) :
    ((scoreOne mexp now sim ev).combined_score =
        (4/10) * (scoreOne mexp now sim ev).relevance_score +
        (2/10) * (scoreOne mexp now sim ev).domain_score +
        (4/10) * (scoreOne mexp now sim ev).recency_score) ∧
    (∀ d, ev.date_diff_days = some d →
        (scoreOne mexp now sim ev).recency_score = mexp (-(d : ℚ) / 30)) ∧
    (∀ pub, ev.date_diff_days = none → ev.published_date = some pub →
        0 ≤ mexp (-((now - pub : ℤ) : ℚ) / 365) →
        mexp (-((now - pub : ℤ) : ℚ) / 365) ≤ 1 →
        (scoreOne mexp now sim ev).recency_score = mexp (-((now - pub : ℤ) : ℚ) / 365)) := by
  refine ⟨?_, ?_, ?_⟩
  · simp only [scoreOne, calculate_combined_score]
    ring
  · intro d hd
    simp [scoreOne, hd]
  · intro pub hdiff hpub h0 h1
    simp only [scoreOne, hdiff, hpub, calculate_recency_score]
    rw [min_eq_right h1, max_eq_right h0]

/-- C3, witness: a concrete item with no date-distance key and publish date
10 days before `now`, under the abstract exponential `fun _ => 1/2`. -/
theorem C3_combined_score_witness :
    (scoreOne (fun _ => 1/2) 10 (3/4)
        { source_title := "t", source_url := "u", domain := "d", snippet := "s"
          published_date := some 0, domain_score := some (8/10)
          date_diff_days := none }).combined_score =
      (4/10) * (scoreOne (fun _ => 1/2) 10 (3/4)
        { source_title := "t", source_url := "u", domain := "d", snippet := "s"
          published_date := some 0, domain_score := some (8/10)
          date_diff_days := none }).relevance_score +
      (2/10) * (scoreOne (fun _ => 1/2) 10 (3/4)
        { source_title := "t", source_url := "u", domain := "d", snippet := "s"
          published_date := some 0, domain_score := some (8/10)
          date_diff_days := none }).domain_score +
      (4/10) * (scoreOne (fun _ => 1/2) 10 (3/4)
        { source_title := "t", source_url := "u", domain := "d", snippet := "s"
          published_date := some 0, domain_score := some (8/10)
          date_diff_days := none }).recency_score ∧
    (scoreOne (fun _ => 1/2) 10 (3/4)
        { source_title := "t", source_url := "u", domain := "d", snippet := "s"
          published_date := some 0, domain_score := some (8/10)
          date_diff_days := none }).recency_score = (1/2 : ℚ) := by
  constructor
  · exact (C3_combined_score (fun _ => 1/2) 10 (3/4)
      { source_title := "t", source_url := "u", domain := "d", snippet := "s"
        published_date := some 0, domain_score := some (8/10)
        date_diff_days := none }).1
  · exact (C3_combined_score (fun _ => 1/2) 10 (3/4)
      { source_title := "t", source_url := "u", domain := "d", snippet := "s"
        published_date := some 0, domain_score := some (8/10)
        date_diff_days := none }).2.2 0 rfl rfl (by norm_num) (by norm_num)

/-! ## C4 — trust score determination -/

/-- C4.  For every (extracted) domain: a denylisted domain yields final trust
score `0.0` regardless of any whitelist tier and category (denylist takes
precedence); a domain matching a whitelist tier `t` with info `info` yields
the tier's base score `info.score.getD 0.5`, multiplied by `0.7` if and only
if the claim's category mismatches the tier's declared categories; a domain
matching neither list yields the default `0.3`.  (`t ≠ ""` is Python's
truthiness test on the tier name, satisfied by every real tier name.) -/
theorem C4_trust_score (sm : SourceManager) (domain : String) (category : Option String) :
    (is_blacklisted sm domain = true →
        (get_credibility_info sm domain category).final_score = 0) ∧
    (∀ t info, is_blacklisted sm domain = false →
        get_domain_tier sm domain = some t → t ≠ "" →
        wlLookup sm.whitelist t = some info →
        (get_credibility_info sm domain category).final_score =
          (if categoryMismatch info category
           then info.score.getD (1/2) * (7/10)
           else info.score.getD (1/2))) ∧
    (is_blacklisted sm domain = false → get_domain_tier sm domain = none →
        (get_credibility_info sm domain category).final_score = 3/10) := by
  refine ⟨?_, ?_, ?_⟩
  · intro h
    simp only [get_credibility_info, get_domain_score, h, if_true]
    split <;> norm_num
  · intro t info hb ht htne hl
    cases category with
    | none =>
        simp [get_credibility_info, get_domain_score, hb, ht, hl, htne, categoryMismatch]
    | some c =>
        by_cases hc : c = ""
        · subst hc
          simp [get_credibility_info, get_domain_score, hb, ht, hl, htne, categoryMismatch]
        · cases hcats : info.categories with
          | none =>
              simp [get_credibility_info, get_domain_score, hb, ht, hl, htne, hc, hcats,
                categoryMismatch]
          | some cats =>
              by_cases hmem : cats.contains c = true
              · simp [get_credibility_info, get_domain_score, hb, ht, hl, htne, hc, hcats,
                  hmem, categoryMismatch]
              · simp [get_credibility_info, get_domain_score, hb, ht, hl, htne, hc, hcats,
                  hmem, categoryMismatch]
  · intro hb ht
    simp [get_credibility_info, get_domain_score, hb, ht]

/-! ## C2 — date-primary evidence ordering -/

/-- `scoredLE` unfolded to a proposition: strictly smaller date distance, or
equal date distance and at-least-as-large combined score. -/
theorem scoredLE_iff (a b : ScoredEvidence) :
    scoredLE a b = true ↔
      a.date_diff_days < b.date_diff_days ∨
        (a.date_diff_days = b.date_diff_days ∧ b.combined_score ≤ a.combined_score) := by
  simp [scoredLE]

instance : IsTotal ScoredEvidence scoredRel where
  total a b := by
    unfold scoredRel
    rw [scoredLE_iff, scoredLE_iff]
    rcases Nat.lt_trichotomy a.date_diff_days b.date_diff_days with h | h | h
    · exact Or.inl (Or.inl h)
    · rcases le_total b.combined_score a.combined_score with hle | hle
      · exact Or.inl (Or.inr ⟨h, hle⟩)
      · exact Or.inr (Or.inr ⟨h.symm, hle⟩)
    · exact Or.inr (Or.inl h)

instance : IsTrans ScoredEvidence scoredRel where
  trans a b c hab hbc := by
    unfold scoredRel at *
    rw [scoredLE_iff] at *
    rcases hab with hab | ⟨hab, hab2⟩ <;> rcases hbc with hbc | ⟨hbc, hbc2⟩
    · exact Or.inl (hab.trans hbc)
    · exact Or.inl (hbc ▸ hab)
    · exact Or.inl (hab ▸ hbc)
    · exact Or.inr ⟨hab.trans hbc, hbc2.trans hab2⟩

/-- The ranked list is sorted by `scoredLE`. -/
theorem rank_evidence_scored_pairwise (mexp : ℚ → ℚ) (now : Int) (sim : Nat → ℚ)
    (evs : List EvidenceDict) :
    List.Pairwise scoredRel (rank_evidence_scored mexp now sim evs) := by
  unfold rank_evidence_scored
  split
  · exact List.Pairwise.nil
  · exact List.sorted_insertionSort scoredRel _

/-- C2.  In the list produced by `rank_evidence` for a claim:
(1) an item with strictly smaller `date_diff_days` ranks strictly earlier
regardless of combined scores; (2) among items with equal `date_diff_days`
the combined score is non-increasing (secondary key); (3) an input item with
no resolvable date is scored with the sentinel distance `3650` and appears in
the ranked list (hence, by (1), after every item with a smaller distance);
(4) top-K selection with the default `K = RAG_TOP_EVIDENCE = 5` is a plain
`take 5` applied after the ordering. -/
theorem C2_date_primary_ordering (mexp : ℚ → ℚ) (now : Int) (sim : Nat → ℚ)
    (evs : List EvidenceDict) :
    (∀ i j (hi : i < (rank_evidence_scored mexp now sim evs).length)
        (hj : j < (rank_evidence_scored mexp now sim evs).length),
        ((rank_evidence_scored mexp now sim evs).get ⟨i, hi⟩).date_diff_days <
            ((rank_evidence_scored mexp now sim evs).get ⟨j, hj⟩).date_diff_days →
          i < j) ∧
    (∀ i j (hi : i < (rank_evidence_scored mexp now sim evs).length)
        (hj : j < (rank_evidence_scored mexp now sim evs).length), i ≤ j →
        ((rank_evidence_scored mexp now sim evs).get ⟨i, hi⟩).date_diff_days =
            ((rank_evidence_scored mexp now sim evs).get ⟨j, hj⟩).date_diff_days →
          ((rank_evidence_scored mexp now sim evs).get ⟨j, hj⟩).combined_score ≤
            ((rank_evidence_scored mexp now sim evs).get ⟨i, hi⟩).combined_score) ∧
    (∀ i (h : i < evs.length), (evs.get ⟨i, h⟩).date_diff_days = none →
        (scoreOne mexp now (sim i) (evs.get ⟨i, h⟩)).date_diff_days = 3650 ∧
        scoreOne mexp now (sim i) (evs.get ⟨i, h⟩) ∈ rank_evidence_scored mexp now sim evs) ∧
    (∀ claim, rank_and_select mexp now sim claim evs none =
        (rank_evidence mexp now sim claim evs).take 5) := by
  have hpw := List.pairwise_iff_get.mp (rank_evidence_scored_pairwise mexp now sim evs)
  refine ⟨?_, ?_, ?_, fun _ => rfl⟩
  · intro i j hi hj hd
    by_contra hij
    push_neg at hij
    rcases Nat.eq_or_lt_of_le hij with heq | hlt
    · subst heq
      exact absurd hd (lt_irrefl _)
    · have := hpw ⟨j, hj⟩ ⟨i, hi⟩ hlt
      unfold scoredRel at this
      rw [scoredLE_iff] at this
      rcases this with h | ⟨h, _⟩
      · omega
      · omega
  · intro i j hi hj hij heq
    rcases Nat.eq_or_lt_of_le hij with h | h
    · subst h
      exact le_refl _
    · have := hpw ⟨i, hi⟩ ⟨j, hj⟩ h
      unfold scoredRel at this
      rw [scoredLE_iff] at this
      rcases this with hcon | ⟨_, hle⟩
      · omega
      · exact hle
  · intro i h hnone
    have hnone' : evs[i].date_diff_days = none := hnone
    refine ⟨by simp [scoreOne, hnone'], ?_⟩
    have hne : evs.isEmpty = false := by
      cases evs with
      | nil => simp at h
      | cons a l => rfl
    rw [rank_evidence_scored, if_neg (by simp [hne])]
    rw [(List.perm_insertionSort scoredRel _).mem_iff]
    refine List.mem_map.mpr ⟨(i, evs.get ⟨i, h⟩), ?_, rfl⟩
    have hlen : i < evs.enum.length := by simpa using h
    have hget : evs.enum.get ⟨i, hlen⟩ = (i, evs.get ⟨i, h⟩) := by
      simp [List.getElem_enum]
    rw [← hget]
    exact List.get_mem _ _ hlen

/-- A constant stand-in for `math.exp` in witnesses. -/
def sampleMexp : ℚ → ℚ := fun _ => 1

/-- A constant similarity collaborator for witnesses. -/
def sampleSim : Nat → ℚ := fun _ => 1

/-- Witness evidence: date distance 40 days. -/
def sampleDictA : EvidenceDict :=
  { source_title := "A", source_url := "https://a.com/x", domain := "a.com", snippet := "sa"
    published_date := some 0, domain_score := some 1, date_diff_days := some 40 }

/-- Witness evidence: date distance 5 days. -/
def sampleDictB : EvidenceDict :=
  { source_title := "B", source_url := "https://b.com/x", domain := "b.com", snippet := "sb"
    published_date := some 0, domain_score := some 1, date_diff_days := some 5 }

/-- Witness evidence: no resolvable date. -/
def sampleDictC : EvidenceDict :=
  { source_title := "C", source_url := "https://c.com/x", domain := "c.com", snippet := "sc"
    published_date := none, domain_score := some 1, date_diff_days := none }

/-- C2, witness: on the concrete three-item list the item ranked at position 0
has a strictly smaller date distance than the one at position 1 (so the
theorem yields `0 < 1`); the dateless third input is scored with the 3650
sentinel; and selection is `take 5` after ranking. -/
theorem C2_date_primary_ordering_witness :
    (0 : Nat) < 1 ∧
    (scoreOne sampleMexp 0 (sampleSim 2)
        ([sampleDictA, sampleDictB, sampleDictC].get ⟨2, by decide⟩)).date_diff_days = 3650 ∧
    rank_and_select sampleMexp 0 sampleSim sampleClaim
        [sampleDictA, sampleDictB, sampleDictC] none =
      (rank_evidence sampleMexp 0 sampleSim sampleClaim
        [sampleDictA, sampleDictB, sampleDictC]).take 5 := by
  refine ⟨?_, ?_, ?_⟩
  · exact (C2_date_primary_ordering sampleMexp 0 sampleSim
      [sampleDictA, sampleDictB, sampleDictC]).1 0 1 (by decide) (by decide) (by decide)
  · exact ((C2_date_primary_ordering sampleMexp 0 sampleSim
      [sampleDictA, sampleDictB, sampleDictC]).2.2.1 2 (by decide) (by decide)).1
  · exact (C2_date_primary_ordering sampleMexp 0 sampleSim
      [sampleDictA, sampleDictB, sampleDictC]).2.2.2 sampleClaim

/-- A concrete whitelist tier (score 0.9, categories politics/economy). -/
def sampleTierInfo : TierInfo :=
  { domains := ["kbs.co.kr", "*.ac.kr"], score := some (9/10)
    categories := some ["politics", "economy"] }

/-- A concrete registry: one tier, one denylisted domain. -/
def sampleRegistry : SourceManager :=
  { whitelist := [("tier1", sampleTierInfo)], blacklist := ["fakenews.com"] }

/-- C4, witness: on the concrete registry, a subdomain of the denylisted
domain scores 0; a subdomain of a whitelisted domain with a mismatching
category scores `0.9 · 0.7`; an unknown domain scores the 0.3 default. -/
theorem C4_trust_score_witness :
    (get_credibility_info sampleRegistry "news.fakenews.com" (some "economy")).final_score
      = 0 ∧
    (get_credibility_info sampleRegistry "news.kbs.co.kr" (some "health")).final_score
      = (9/10) * (7/10) ∧
    (get_credibility_info sampleRegistry "unknown.com" (some "economy")).final_score
      = 3/10 := by
  refine ⟨?_, ?_, ?_⟩
  · exact (C4_trust_score sampleRegistry "news.fakenews.com" (some "economy")).1 (by decide)
  · have h := (C4_trust_score sampleRegistry "news.kbs.co.kr" (some "health")).2.1
      "tier1" sampleTierInfo (by decide) (by decide) (by decide) rfl
    rw [h]
    norm_num [categoryMismatch, sampleTierInfo]
    exact ⟨by decide, by decide, by decide⟩
  · exact (C4_trust_score sampleRegistry "unknown.com" (some "economy")).2.2
      (by decide) (by decide)

/-! ## C8 — retry policy of the captions strategy -/

/-- The loop performs at most `fuel` fetch attempts. -/
theorem get_transcript_loop_proxyLog_length (outcome : Nat → FetchOutcome) (jitter : Nat → ℚ)
    (ytdlp : String) :
    ∀ fuel attempt proxy,
      (get_transcript_loop outcome jitter ytdlp fuel attempt proxy).proxyLog.length ≤ fuel := by
  intro fuel
  induction fuel with
  | zero => intro attempt proxy; simp [get_transcript_loop]
  | succ n ih =>
      intro attempt proxy
      simp only [get_transcript_loop]
      cases houtcome : outcome attempt with
      | success s => simp [houtcome]
      | captionsDisabled => simp [houtcome]
      | noTranscriptFound => simp [houtcome]
      | failure p r =>
          simp only [houtcome]
          split
          · simpa using Nat.succ_le_succ (ih (attempt + 1) _)
          · simp

/-- The loop sleeps at most `fuel - 1` times, provided the attempt counter and
the remaining fuel add up to the retry budget (as they do in
`get_transcript`). -/
theorem get_transcript_loop_delays_length (outcome : Nat → FetchOutcome) (jitter : Nat → ℚ)
    (ytdlp : String) :
    ∀ fuel attempt proxy, attempt + fuel = max_retries →
      (get_transcript_loop outcome jitter ytdlp fuel attempt proxy).delays.length ≤ fuel - 1 := by
  intro fuel
  induction fuel with
  | zero => intro attempt proxy _; simp [get_transcript_loop]
  | succ n ih =>
      intro attempt proxy hinv
      simp only [get_transcript_loop]
      cases houtcome : outcome attempt with
      | success s => simp [houtcome]
      | captionsDisabled => simp [houtcome]
      | noTranscriptFound => simp [houtcome]
      | failure p r =>
          simp only [houtcome]
          split
          · rename_i hguard
            have hlt : attempt < max_retries - 1 := by
              have := (Bool.and_eq_true _ _).mp hguard
              simpa using this.2
            have hn : 1 ≤ n := by
              unfold max_retries at hinv hlt
              omega
            have hrest := ih (attempt + 1) (if p && proxy then false else proxy)
              (by unfold max_retries at hinv ⊢; omega)
            simp only [List.length_cons]
            omega
          · simp

/-- The k-th recorded backoff delay, counted from the loop entry at `attempt`,
is `base_delay · 2^(attempt+k) + jitter (attempt+k)` (read with `List.getD`,
with an arbitrary default outside the range). -/
theorem get_transcript_loop_delays_getD (outcome : Nat → FetchOutcome) (jitter : Nat → ℚ)
    (ytdlp : String) :
    ∀ fuel attempt proxy k,
      k < (get_transcript_loop outcome jitter ytdlp fuel attempt proxy).delays.length →
      (get_transcript_loop outcome jitter ytdlp fuel attempt proxy).delays.getD k 0 =
        base_delay * 2 ^ (attempt + k) + jitter (attempt + k) := by
  intro fuel
  induction fuel with
  | zero => intro attempt proxy k hk; simp [get_transcript_loop] at hk
  | succ n ih =>
      intro attempt proxy k
      cases houtcome : outcome attempt with
      | success s => simp [get_transcript_loop, houtcome]
      | captionsDisabled => simp [get_transcript_loop, houtcome]
      | noTranscriptFound => simp [get_transcript_loop, houtcome]
      | failure p r =>
          simp only [get_transcript_loop, houtcome]
          split
          · cases k with
            | zero => intro _; simp
            | succ m =>
                intro hk
                have hm : m < (get_transcript_loop outcome jitter ytdlp n (attempt + 1)
                    (if p && proxy then false else proxy)).delays.length := by
                  simpa using hk
                have hrec := ih (attempt + 1) (if p && proxy then false else proxy) m hm
                simp only [List.getD_cons_succ]
                rw [hrec, show attempt + 1 + m = attempt + (m + 1) by omega]
          · intro hk; simp at hk

/-- Once the loop runs with the proxy disabled, every remaining fetch attempt
runs without the proxy. -/
theorem get_transcript_loop_proxy_false (outcome : Nat → FetchOutcome) (jitter : Nat → ℚ)
    (ytdlp : String) :
    ∀ fuel attempt,
      ∀ b ∈ (get_transcript_loop outcome jitter ytdlp fuel attempt false).proxyLog,
        b = false := by
  intro fuel
  induction fuel with
  | zero => intro attempt b hb; simp [get_transcript_loop] at hb
  | succ n ih =>
      intro attempt b hb
      revert hb
      simp only [get_transcript_loop]
      cases houtcome : outcome attempt with
      | success s => simp [houtcome]
      | captionsDisabled => simp [houtcome]
      | noTranscriptFound => simp [houtcome]
      | failure p r =>
          simp only [houtcome]
          split
          · intro hb
            simp only [Bool.and_false, Bool.false_eq_true, if_false, List.mem_cons] at hb
            rcases hb with hb | hb
            · exact hb
            · exact ih (attempt + 1) b hb
          · intro hb
            simpa using hb

/-- Reading a position inside an all-false boolean list gives `false`. -/
theorem listGetD_false (l : List Bool) (h : ∀ b ∈ l, b = false) :
    ∀ j, j < l.length → l.getD j true = false := by
  induction l with
  | nil => intro j hj; simp at hj
  | cons a t ih =>
      intro j hj
      cases j with
      | zero => simpa using h a (by simp)
      | succ m =>
          simp only [List.getD_cons_succ]
          exact ih (fun b hb => h b (by simp [hb])) m (by simpa using hj)

/-- Once a proxy-classified failure occurs at the (attempt+k)-th fetch, every
later fetch attempt of the same run happens with the proxy disabled. -/
theorem get_transcript_loop_proxy_disabled (outcome : Nat → FetchOutcome) (jitter : Nat → ℚ)
    (ytdlp : String) :
    ∀ fuel attempt proxy k rl j,
      j < (get_transcript_loop outcome jitter ytdlp fuel attempt proxy).proxyLog.length →
      outcome (attempt + k) = .failure true rl → k < j →
      (get_transcript_loop outcome jitter ytdlp fuel attempt proxy).proxyLog.getD j true =
        false := by
  intro fuel
  induction fuel with
  | zero => intro attempt proxy k rl j hj _ _; simp [get_transcript_loop] at hj
  | succ n ih =>
      intro attempt proxy k rl j
      cases houtcome : outcome attempt with
      | success s =>
          intro hj _ hkj
          simp [get_transcript_loop, houtcome] at hj
          omega
      | captionsDisabled =>
          intro hj _ hkj
          simp [get_transcript_loop, houtcome] at hj
          omega
      | noTranscriptFound =>
          intro hj _ hkj
          simp [get_transcript_loop, houtcome] at hj
          omega
      | failure p r =>
          simp only [get_transcript_loop, houtcome]
          split
          · intro hj hout hkj
            cases k with
            | zero =>
                have hp : p = true := by
                  rw [Nat.add_zero, houtcome] at hout
                  exact (FetchOutcome.failure.injEq _ _ _ _).mp hout |>.1
                subst hp
                have hproxy : (if true && proxy then false else proxy) = false := by
                  cases proxy <;> simp
                cases j with
                | zero => omega
                | succ m =>
                    simp only [List.getD_cons_succ]
                    rw [hproxy]
                    refine listGetD_false _ ?_ m ?_
                    · exact get_transcript_loop_proxy_false outcome jitter ytdlp n (attempt + 1)
                    · have := hj
                      simp only [List.length_cons, hproxy] at this ⊢
                      omega
            | succ m =>
                cases j with
                | zero => omega
                | succ j' =>
                    simp only [List.getD_cons_succ]
                    refine ih (attempt + 1) _ m rl j' ?_ ?_ (by omega)
                    · have := hj
                      simp only [List.length_cons] at this
                      omega
                    · rw [show attempt + 1 + m = attempt + (m + 1) by omega]
                      exact hout
          · intro hj hout hkj
            simp at hj
            omega

/-- C8.  For every run of the captions strategy with retryable failures: the
strategy performs at most 5 fetch attempts (hence at most 4 retries) and so
always terminates within 5 attempts; the k-th backoff delay is exactly
`4·2^k + jitter k`, hence lies in `[4·2^k, 4·2^k + 2)` whenever the jitter is
drawn from `[0, 2)`; and once a proxy-classified failure occurs at attempt k,
every later fetch attempt of the same request runs with the proxy disabled. -/
theorem C8_retry_policy (outcome : Nat → FetchOutcome) (jitter : Nat → ℚ) (ytdlp : String)
    (proxyConfigured : Bool) :
    (get_transcript outcome jitter ytdlp proxyConfigured).proxyLog.length ≤ 5 ∧
    (get_transcript outcome jitter ytdlp proxyConfigured).delays.length ≤ 4 ∧
    (∀ k, k < (get_transcript outcome jitter ytdlp proxyConfigured).delays.length →
        (get_transcript outcome jitter ytdlp proxyConfigured).delays.getD k 0 =
          4 * 2 ^ k + jitter k) ∧
    ((∀ a, 0 ≤ jitter a ∧ jitter a < 2) →
      ∀ k, k < (get_transcript outcome jitter ytdlp proxyConfigured).delays.length →
        4 * 2 ^ k ≤ (get_transcript outcome jitter ytdlp proxyConfigured).delays.getD k 0 ∧
        (get_transcript outcome jitter ytdlp proxyConfigured).delays.getD k 0 <
          4 * 2 ^ k + 2) ∧
    (∀ rl k j, j < (get_transcript outcome jitter ytdlp proxyConfigured).proxyLog.length →
        outcome k = .failure true rl → k < j →
        (get_transcript outcome jitter ytdlp proxyConfigured).proxyLog.getD j true = false) := by
  have hval : ∀ k, k < (get_transcript outcome jitter ytdlp proxyConfigured).delays.length →
      (get_transcript outcome jitter ytdlp proxyConfigured).delays.getD k 0 =
        4 * 2 ^ k + jitter k := by
    intro k hk
    have := get_transcript_loop_delays_getD outcome jitter ytdlp max_retries 0
      proxyConfigured k hk
    simpa [base_delay] using this
  refine ⟨?_, ?_, hval, ?_, ?_⟩
  · exact get_transcript_loop_proxyLog_length outcome jitter ytdlp max_retries 0 proxyConfigured
  · exact get_transcript_loop_delays_length outcome jitter ytdlp max_retries 0
      proxyConfigured rfl
  · intro hjit k hk
    rw [hval k hk]
    have := hjit k
    constructor
    · linarith [this.1]
    · linarith [this.2]
  · intro rl k j hj hout hkj
    exact get_transcript_loop_proxy_disabled outcome jitter ytdlp max_retries 0
      proxyConfigured k rl j hj (by simpa using hout) hkj

/-- A constant unit jitter for the C8 witness. -/
def sampleJitter : Nat → ℚ := fun _ => 1

/-- An always-proxy-failing outcome for the C8 witness. -/
def sampleOutcomeProxyFail : Nat → FetchOutcome := fun _ => .failure true false

/-- C8, witness: an always-proxy-failing run with unit jitter makes exactly 5
attempts and 4 sleeps; its first delay is `4·2^0 + 1`, lies in the claimed
band, and its third attempt runs without the proxy. -/
theorem C8_retry_policy_witness :
    (get_transcript sampleOutcomeProxyFail sampleJitter "" true).proxyLog.length ≤ 5 ∧
    (get_transcript sampleOutcomeProxyFail sampleJitter "" true).delays.getD 0 0 =
      4 * 2 ^ 0 + sampleJitter 0 ∧
    4 * 2 ^ 1 ≤ (get_transcript sampleOutcomeProxyFail sampleJitter "" true).delays.getD 1 0 ∧
    (get_transcript sampleOutcomeProxyFail sampleJitter "" true).proxyLog.getD 2 true =
      false := by
  refine ⟨?_, ?_, ?_, ?_⟩
  · exact (C8_retry_policy sampleOutcomeProxyFail sampleJitter "" true).1
  · exact (C8_retry_policy sampleOutcomeProxyFail sampleJitter "" true).2.2.1 0 (by decide)
  · exact ((C8_retry_policy sampleOutcomeProxyFail sampleJitter "" true).2.2.2.1
      (fun a => by norm_num [sampleJitter]) 1 (by decide)).1
  · exact (C8_retry_policy sampleOutcomeProxyFail sampleJitter "" true).2.2.2.2
      false 0 2 (by decide) rfl (by decide)

/-- C1, witness for the amended theorem at a concrete claim and oracle. -/
theorem C1_zero_evidence_amended_witness :
    (process_single_claim sampleMexp 0 sampleSim sampleClaim []
        (.ok { verdict_status := none, reason := none })).verdict.verdict_status =
      "insufficient_evidence" ∧
    (process_single_claim sampleMexp 0 sampleSim sampleClaim []
        (.ok { verdict_status := none, reason := none })).oracleInvoked = false :=
  ⟨(C1_zero_evidence_amended sampleMexp 0 sampleSim sampleClaim
      (.ok { verdict_status := none, reason := none })).1,
   (C1_zero_evidence_amended sampleMexp 0 sampleSim sampleClaim
      (.ok { verdict_status := none, reason := none })).2.1⟩

/-- C5, witness for the amended theorem at a concrete oracle response. -/
theorem C5_is_fake_amended_witness :
    (judge_claim sampleClaim [sampleEvidence]
        (.ok { verdict_status := some "verified_true", reason := some "ok" })).verdict.is_fake
      = false ∧
    (judge_claim sampleClaim [sampleEvidence]
        (.ok { verdict_status := some "verified_true", reason := some "ok" })).verdict.verdict_status
      = "insufficient_evidence" := by
  have h := C5_is_fake_amended sampleClaim sampleEvidence []
    { verdict_status := some "verified_true", reason := some "ok" } "err"
  refine ⟨?_, h.2.1⟩
  by_contra hc
  have : validated_verdict_status
      { verdict_status := some "verified_true", reason := some "ok" } = "verified_false" :=
    h.1.mp (by revert hc; cases hfake : (judge_claim sampleClaim [sampleEvidence]
      (.ok { verdict_status := some "verified_true", reason := some "ok" })).verdict.is_fake
      <;> simp)
  exact absurd this (by decide)

/-- A concrete verdict marked fake, for the C10 witness. -/
def sampleFakeVerdict : ClaimVerdict :=
  { claim_id := "c1", claim_text := "t", category := "g"
    verdict_status := "insufficient_evidence", is_fake := true
    verdict_reason := "r", evidence := [], processing_time_ms := 0 }

/-- C10, witness: a single fake verdict makes `is_fake_news` true. -/
theorem C10_majority_aggregation_witness :
    (aggregate_verdicts [sampleFakeVerdict]).is_fake_news = true :=
  (C10_majority_aggregation [sampleFakeVerdict]).1.mpr ⟨by simp, by decide⟩
